import Mathlib

/-!
Verification of the filter-and-aggregation pipeline of the Netflix analytics
dashboard (src/app.py).  The catalog rows, the sidebar filter, the pandas
explode/value_counts aggregations, the groupby/unstack cross tabulation, the
duration extraction and the tolerant date loading are embedded as executable
Lean definitions, translated directly from the pandas expressions in the
source.  Missing values (pandas NaN/NaT) are embedded as `Option.none`.
-/

namespace Netflix

/-- A parsed calendar date: the result of the tolerant date parser
(`pd.to_datetime`).  Only the year and month are ever consumed downstream. -/
structure Date where
  year : Int
  month : Nat
  day : Nat
deriving DecidableEq, Repr

/-- A raw CSV record of netflix_titles.csv, the input of `load_data`
(src/app.py line 56).  Columns that may be empty in the CSV (pandas reads
them as NaN) are `Option`. -/
structure RawRow where
  showId : String
  type : String
  title : String
  director : Option String
  cast : Option String
  country : Option String
  dateAdded : Option String
  releaseYear : Int
  rating : Option String
  duration : Option String
  listedIn : Option String
deriving DecidableEq, Repr

/-- A catalog row after `load_data` (src/app.py lines 54-58): identical to the
raw record except that the date_added column has been replaced by the result
of the tolerant date parse (NaT, i.e. `none`, on failure). -/
structure NRow where
  showId : String
  type : String
  title : String
  director : Option String
  cast : Option String
  country : Option String
  dateAdded : Option Date
  releaseYear : Int
  rating : Option String
  duration : Option String
  listedIn : Option String
deriving DecidableEq, Repr

/-- One row of `load_data` (src/app.py line 57):
`df['date_added'] = pd.to_datetime(df['date_added'], errors='coerce')`.
The parser is a parameter; `errors='coerce'` means a failed parse becomes
NaT (`none`) while every other field is carried over unchanged. -/
def loadRow (parse : String → Option Date) (r : RawRow) : NRow :=
  { showId := r.showId, type := r.type, title := r.title, director := r.director,
    cast := r.cast, country := r.country, dateAdded := r.dateAdded.bind parse,
    releaseYear := r.releaseYear, rating := r.rating, duration := r.duration,
    listedIn := r.listedIn }

/-- `load_data` (src/app.py lines 54-58): the date column is coerced row by
row; no row is dropped. -/
def load_data (parse : String → Option Date) (raws : List RawRow) : List NRow :=
  raws.map (loadRow parse)

/-- Modelled from the spec: src/app.py parses date_added (line 57) but never
derives an added-year column; the spec (section 3) says addedYear is the year
component of dateAdded, absent when the date is unparseable. -/
def addedYear (r : NRow) : Option Int := r.dateAdded.map Date.year

/-- Modelled from the spec: the month component of dateAdded, absent when the
date is unparseable (src/app.py never derives this column either). -/
def addedMonth (r : NRow) : Option Nat := r.dateAdded.map Date.month

/-- The sidebar filter state (src/app.py lines 100-119): an inclusive release
year range from the slider, the selected content types and the selected
ratings from the two multiselects.  The rating options are built with
`df['rating'].dropna().unique()`, so the selection is a list of present
rating strings and can never contain the absent marker. -/
structure FilterSpec where
  yearMin : Int
  yearMax : Int
  types : List String
  ratings : List String
deriving DecidableEq, Repr

/-- The row predicate of the boolean-mask filter (src/app.py lines 122-127):
`(release_year >= lo) & (release_year <= hi) & type.isin(content_type) &
rating.isin(rating_filter)`.  A NaN rating is not `isin` any list of strings,
which the `none` branch mirrors. -/
def rowPasses (spec : FilterSpec) (r : NRow) : Bool :=
  decide (spec.yearMin ≤ r.releaseYear) && decide (r.releaseYear ≤ spec.yearMax)
    && decide (r.type ∈ spec.types)
    && (match r.rating with
        | some s => decide (s ∈ spec.ratings)
        | none => false)

/-- `filtered_df` (src/app.py lines 122-127): the rows of the catalog that
satisfy the boolean mask, in their original order. -/
def filtered_df (df : List NRow) (spec : FilterSpec) : List NRow :=
  df.filter (rowPasses spec)

/-- The selectable rating options (src/app.py line 117):
`df['rating'].dropna().unique()` - the distinct present ratings, in first
occurrence order. -/
def ratingOptions (df : List NRow) : List String :=
  (df.filterMap (fun r => r.rating)).dedup

/-- Splitting a character list on the literal two-character separator ", ",
exactly as Python/pandas `.str.split(', ')` does (src/app.py lines 72-81):
a left-to-right scan that cuts at every occurrence of a comma immediately
followed by a space.  Segments are kept verbatim - no whitespace trimming -
and empty segments are kept; the empty input yields one empty segment. -/
def splitCS : List Char → List Char → List String
  | ',' :: ' ' :: rest, acc => String.mk acc.reverse :: splitCS rest []
  | c :: rest, acc => splitCS rest (c :: acc)
  | [], acc => [String.mk acc.reverse]

/-- `s.str.split(', ')` on a single present cell. -/
def splitMulti (s : String) : List String := splitCS s.data []

/-- Modelled from the spec (the refinement target for the splitting claim):
split on ", ", trim surrounding whitespace from each segment, drop empty
segments.  This is what the spec's normalization invariant describes; the
code under src/ never trims or drops. -/
def isSpaceChar (c : Char) : Bool := c = ' ' || c = '\t' || c = '\n' || c = '\r'

/-- Modelled from the spec: trim surrounding whitespace from a string. -/
def trimStr (s : String) : String :=
  String.mk (((s.data.dropWhile isSpaceChar).reverse.dropWhile isSpaceChar).reverse)

/-- Modelled from the spec: the spec's version of multi-value splitting
(split on ", ", trim each segment, drop the empty ones). -/
def splitMultiSpec (s : String) : List String :=
  ((splitMulti s).map trimStr).filter (fun t => decide (t ≠ ""))

/-- The values one row contributes to an exploded multi-value column
(src/app.py lines 72-81 and 222): `series.str.split(', ').explode()`.
A present cell contributes its split segments; an absent cell (NaN) explodes
to a single NaN entry, which `value_counts` ignores, so for counting it
contributes nothing. -/
def rowValues (field : NRow → Option String) (r : NRow) : List String :=
  match field r with
  | some s => splitMulti s
  | none => []

/-- The number of values a row's multi-value field holds. -/
def valueCount (field : NRow → Option String) (r : NRow) : Nat :=
  match field r with
  | some s => (splitMulti s).length
  | none => 0

/-- The exploded column over a row set: `rows[field].str.split(', ').explode()`
(src/app.py line 222 for genres, 344 for countries, 690-691 for directors
and cast). -/
def explodeVals (rows : List NRow) (field : NRow → Option String) : List String :=
  (rows.map (rowValues field)).flatten

/-- `value_counts` of a single-valued column (src/app.py lines 161, 188):
the count of rows whose field is present and equal to `v`; NaN cells fall
into no bucket. -/
def countBy (rows : List NRow) (field : NRow → Option String) (v : String) : Nat :=
  (rows.filter (fun r => decide (field r = some v))).length

/-- One cell of the cross tabulation
`rows.groupby([fieldA, fieldB]).size().unstack(fill_value=0)`
(src/app.py line 657 for (type, rating), line 525 for (release_year, type)):
the number of rows whose two fields are present and equal to `a` and `b`;
groupby drops rows with a missing key, and `fill_value=0` makes every cell of
the Cartesian product of observed values present, `0` when no row matches. -/
def crossTab (rows : List NRow) (f g : NRow → Option String) (a b : String) : Nat :=
  (rows.filter (fun r => decide (f r = some a) && decide (g r = some b))).length

/-- The value of a maximal digit run, most significant digit first. -/
def digitsVal (ds : List Char) : Nat :=
  ds.foldl (fun n c => n * 10 + (c.toNat - 48)) 0

/-- Scan for the first maximal digit run of a character list. -/
def firstIntAux : List Char → Option Nat
  | [] => none
  | c :: rest =>
      if c.isDigit then some (digitsVal (c :: rest.takeWhile Char.isDigit))
      else firstIntAux rest

/-- `series.str.extract('(\d+)')` (src/app.py lines 65, 69, 759, 762): the
first run of digits of the string, absent when the string holds no digit. -/
def extractFirstInt (s : String) : Option Nat := firstIntAux s.data

/-- The pair of derived duration columns. -/
structure DurationFields where
  durationMinutes : Option Nat
  seasonCount : Option Nat
deriving DecidableEq, Repr

/-- The duration derivation of `preprocess_data` (src/app.py lines 63-69) and
of the per-tab recomputation (lines 758-762): the df is split by type, movies
get `duration_int` extracted from the duration string, TV shows get
`seasons_int`; a movie frame has no seasons column and vice versa, and a NaN
duration or a digit-free duration extracts to NaN. -/
def preprocess_duration (r : NRow) : DurationFields :=
  if r.type = "Movie" then
    { durationMinutes := r.duration.bind extractFirstInt, seasonCount := none }
  else if r.type = "TV Show" then
    { durationMinutes := none, seasonCount := r.duration.bind extractFirstInt }
  else
    { durationMinutes := none, seasonCount := none }

/-- The mean of a list of rationals (division by zero for the empty list,
matching the convention that the degenerate case is settled separately). -/
def qmean (xs : List ℚ) : ℚ := xs.sum / (xs.length : ℚ)

/-- The sum of squared deviations from the mean: the numerator of a sample
variance, and the square of one factor of the Pearson denominator. -/
def sumSqDev (xs : List ℚ) : ℚ := (xs.map (fun x => (x - qmean xs) ^ 2)).sum

/-- Definedness of `df[['release_year','duration_int']].corr().iloc[0,1]`
(src/app.py line 858): pandas computes Pearson r as
sum(dx*dy) / sqrt(sum(dx^2) * sum(dy^2)) and the result is NaN exactly when
the denominator vanishes, i.e. when either coordinate has zero squared
deviation (which covers fewer than two points). -/
def corrDefined (pts : List (ℚ × ℚ)) : Bool :=
  decide (sumSqDev (pts.map Prod.fst) * sumSqDev (pts.map Prod.snd) ≠ 0)

/-- The narrative of src/app.py lines 879-882: the string
`"Positive" if correlation > 0 else "Negative"`.  A NaN correlation
(modelled `none`) compares as not-greater, so it silently lands in the
"Negative" branch. -/
def corrNarrative (c : Option ℚ) : String :=
  match c with
  | some v => if 0 < v then "Positive" else "Negative"
  | none => "Negative"

/-- A concrete movie row used to instantiate the theorems. -/
def sampleMovie : NRow :=
  { showId := "s1", type := "Movie", title := "A", director := some "X",
    cast := some "Y, Z", country := some "United States", dateAdded := none,
    releaseYear := 2015, rating := some "PG-13", duration := some "90 min",
    listedIn := some "Drama, Comedy" }

/-- A concrete TV show row used to instantiate the theorems. -/
def sampleTV : NRow :=
  { showId := "s2", type := "TV Show", title := "B", director := none,
    cast := none, country := some "India", dateAdded := none,
    releaseYear := 2018, rating := some "TV-MA", duration := some "7 Seasons",
    listedIn := some "Drama" }

/-- A concrete row with an absent rating. -/
def sampleNoRating : NRow :=
  { showId := "s3", type := "Movie", title := "C", director := none,
    cast := none, country := none, dateAdded := none,
    releaseYear := 2015, rating := none, duration := some "91 min",
    listedIn := some "Comedy" }

/-- A concrete movie row with a present rating but an absent country: it
passes the rating filter, yet contributes no key to a country groupby. -/
def sampleNoCountry : NRow :=
  { showId := "s4", type := "Movie", title := "D", director := none,
    cast := none, country := none, dateAdded := none,
    releaseYear := 2016, rating := some "PG-13", duration := some "100 min",
    listedIn := some "Drama" }

/-- A concrete filter specification covering every sample row's year and
type, with all present ratings selected. -/
def sampleSpec : FilterSpec :=
  { yearMin := 2000, yearMax := 2020, types := ["Movie", "TV Show"],
    ratings := ["PG-13", "TV-MA"] }

/-- A concrete raw record whose date_added does not parse. -/
def sampleRaw : RawRow :=
  { showId := "s1", type := "Movie", title := "A", director := some "X",
    cast := some "Y, Z", country := some "United States",
    dateAdded := some "not a real date", releaseYear := 2015,
    rating := some "PG-13", duration := some "90 min",
    listedIn := some "Drama, Comedy" }

/-! ## Helper lemmas -/

/-- A row that passes the filter has a present rating (the `none` branch of
the mask is `false`). -/
lemma rating_isSome_of_passes (spec : FilterSpec) (r : NRow)
    (h : rowPasses spec r = true) : (r.rating).isSome = true := by
  unfold rowPasses at h
  cases hr : r.rating with
  | none => rw [hr] at h; simp at h
  | some s => rfl

/-- Partition of a filtered count by the value of a second, present field:
summing the doubly filtered lengths over any index set that covers the
second field's values on the first filter recovers the single filter's
length. -/
lemma countP_partition {α β : Type} [DecidableEq β] (l : List α) (p : α → Bool)
    (g : α → Option β) (S : Finset β)
    (H : ∀ x ∈ l, p x = true → ∃ b ∈ S, g x = some b) :
    ∑ b ∈ S, (l.filter (fun x => p x && decide (g x = some b))).length
      = (l.filter p).length := by
  induction l with
  | nil => simp
  | cons x xs ih =>
    have hx : ∀ y ∈ xs, p y = true → ∃ b ∈ S, g y = some b :=
      fun y hy hpy => H y (List.mem_cons_of_mem _ hy) hpy
    by_cases hp : p x = true
    · obtain ⟨b0, hb0S, hgb0⟩ := H x (List.mem_cons_self x xs) hp
      have hcell : ∀ b ∈ S,
          ((x :: xs).filter (fun y => p y && decide (g y = some b))).length
          = (if b = b0 then 1 else 0)
            + (xs.filter (fun y => p y && decide (g y = some b))).length := by
        intro b _
        by_cases hb : b = b0
        · subst hb
          simp [List.filter_cons, hp, hgb0]
          omega
        · have hne : ¬ (g x = some b) := by
            rw [hgb0]
            intro hcontra
            exact hb (Option.some.inj hcontra).symm
          simp [List.filter_cons, hp, hne, hb]
      rw [Finset.sum_congr rfl hcell, Finset.sum_add_distrib, ih hx]
      have hone : (∑ b ∈ S, if b = b0 then (1:ℕ) else 0) = 1 := by
        simp [Finset.sum_ite_eq' S b0 (fun _ => (1:ℕ)), hb0S]
      rw [hone]
      simp [List.filter_cons, hp]
      omega
    · have hcell : ∀ b ∈ S,
          ((x :: xs).filter (fun y => p y && decide (g y = some b))).length
          = (xs.filter (fun y => p y && decide (g y = some b))).length := by
        intro b _
        simp [List.filter_cons, hp]
      rw [Finset.sum_congr rfl hcell, ih hx]
      simp [List.filter_cons, hp]

/-- A scan that never meets a digit yields no integer. -/
lemma firstIntAux_none (cs : List Char) (h : ∀ c ∈ cs, c.isDigit = false) :
    firstIntAux cs = none := by
  induction cs with
  | nil => rfl
  | cons c rest ih =>
    unfold firstIntAux
    rw [h c (List.mem_cons_self c rest)]
    simp
    exact ih (fun d hd => h d (List.mem_cons_of_mem _ hd))

/-- The empty point list has zero squared deviation. -/
lemma sumSqDev_nil : sumSqDev [] = 0 := by simp [sumSqDev]

/-- A single point has zero squared deviation from its own mean. -/
lemma sumSqDev_singleton (x : ℚ) : sumSqDev [x] = 0 := by
  simp [sumSqDev, qmean]

/-! ## Claim theorems -/

/-- C1: a catalog row is in the filtered set exactly when its release year
lies in the inclusive year range, its type is in the selected type set and
its rating is present and in the selected rating set (src/app.py
lines 122-127). -/
theorem netflix_filter_mem (df : List NRow) (spec : FilterSpec) (r : NRow)
    (hr : r ∈ df) :
    r ∈ filtered_df df spec ↔
      (spec.yearMin ≤ r.releaseYear ∧ r.releaseYear ≤ spec.yearMax ∧
       r.type ∈ spec.types ∧ ∃ s, r.rating = some s ∧ s ∈ spec.ratings) := by
  unfold filtered_df
  rw [List.mem_filter]
  unfold rowPasses
  cases hrt : r.rating <;>
    simp [hr, hrt, and_assoc]

/-- Witness for C1 at a concrete catalog, filter and row. -/
theorem netflix_filter_mem_witness :
    sampleMovie ∈ filtered_df [sampleMovie, sampleTV] sampleSpec ↔
      (sampleSpec.yearMin ≤ sampleMovie.releaseYear ∧
       sampleMovie.releaseYear ≤ sampleSpec.yearMax ∧
       sampleMovie.type ∈ sampleSpec.types ∧
       ∃ s, sampleMovie.rating = some s ∧ s ∈ sampleSpec.ratings) :=
  netflix_filter_mem [sampleMovie, sampleTV] sampleSpec sampleMovie (by decide)

/-- C2: the exploded multi-value index gives a row exactly as many entries
as its field has values, each weighted 1, so the total of the exploded
frequency table equals the sum over rows of the per-row value counts
(src/app.py lines 71-82 and 222-229). -/
theorem netflix_explode_total (rows : List NRow) (field : NRow → Option String) :
    (∀ r : NRow, (rowValues field r).length = valueCount field r)
    ∧ ∑ v ∈ (explodeVals rows field).toFinset, (explodeVals rows field).count v
        = (rows.map (valueCount field)).sum := by
  constructor
  · intro r
    unfold rowValues valueCount
    cases field r <;> rfl
  · rw [List.sum_toFinset_count_eq_length]
    unfold explodeVals
    rw [List.length_flatten, List.map_map]
    congr 1
    apply List.map_congr_left
    intro r _
    unfold rowValues valueCount
    cases hfr : field r <;> simp [hfr]

/-- Counterexample to C3: the code splits multi-value fields on the literal
", " but does not trim surrounding whitespace from the segments (nor drop
empty segments), while the spec-modelled normalization does. -/
theorem netflix_split_trim_cex :
    splitMulti "Drama , Comedy" = ["Drama ", "Comedy"]
    ∧ splitMultiSpec "Drama , Comedy" = ["Drama", "Comedy"]
    ∧ splitMulti "Drama , Comedy" ≠ splitMultiSpec "Drama , Comedy" := by
  refine ⟨by decide, by decide, by decide⟩

/-- C3 (amended): multi-value fields are split on the literal separator ", "
with segments kept verbatim - surrounding whitespace is not trimmed and
empty segments are not dropped - and an absent source field contributes no
segments at all (src/app.py lines 71-82). -/
theorem netflix_split_verbatim :
    (∀ (field : NRow → Option String) (r : NRow),
        field r = none → rowValues field r = [])
    ∧ splitMulti "Drama, Comedy" = ["Drama", "Comedy"]
    ∧ splitMulti "Drama , Comedy" = ["Drama ", "Comedy"]
    ∧ splitMulti "a, , b" = ["a", "", "b"] := by
  refine ⟨?_, by decide, by decide, by decide⟩
  intro field r h
  unfold rowValues
  rw [h]

/-- Witness for C3 (amended) at a concrete absent field. -/
theorem netflix_split_verbatim_witness :
    rowValues (fun r => r.director) sampleTV = [] :=
  netflix_split_verbatim.1 (fun r => r.director) sampleTV rfl

/-- C4: duration parsing extracts the first integer token of the duration
string; a Movie row stores it as durationMinutes with seasonCount absent, a
TV Show row stores it as seasonCount with durationMinutes absent, and a
digit-free string extracts to absent; in particular "7 Seasons" on a TV show
gives seasonCount 7 and "90 min" on a movie gives durationMinutes 90
(src/app.py lines 63-69 and 758-762). -/
theorem netflix_duration_parse :
    (∀ r : NRow, r.type = "Movie" →
        (preprocess_duration r).durationMinutes = r.duration.bind extractFirstInt ∧
        (preprocess_duration r).seasonCount = none)
    ∧ (∀ r : NRow, r.type = "TV Show" →
        (preprocess_duration r).seasonCount = r.duration.bind extractFirstInt ∧
        (preprocess_duration r).durationMinutes = none)
    ∧ (∀ s : String, (∀ c ∈ s.data, c.isDigit = false) → extractFirstInt s = none)
    ∧ preprocess_duration sampleTV = { durationMinutes := none, seasonCount := some 7 }
    ∧ preprocess_duration sampleMovie = { durationMinutes := some 90, seasonCount := none } := by
  refine ⟨?_, ?_, ?_, by decide, by decide⟩
  · intro r h
    simp [preprocess_duration, h]
  · intro r h
    have hne : r.type ≠ "Movie" := by rw [h]; decide
    simp [preprocess_duration, h, hne]
  · intro s h
    exact firstIntAux_none s.data h

/-- Witness for C4 at a concrete digit-free string. -/
theorem netflix_duration_parse_witness : extractFirstInt "abc min" = none :=
  netflix_duration_parse.2.2.1 "abc min" (by decide)

/-- Counterexample to C5: the marginal property does not hold for every
filtered row set and every field pair.  A concrete filtered set holds an
absent-country row (the filter of src/app.py lines 122-127 forces only
year, type and rating); with fields (type, country), groupby drops the
NaN-keyed row from the cross tabulation while value_counts on type still
counts it, so the "Movie" row sum is 1 yet countBy gives 2. -/
theorem netflix_crossTab_cex :
    sampleNoCountry ∈ filtered_df [sampleMovie, sampleNoCountry] sampleSpec
    ∧ ∑ b ∈ ((filtered_df [sampleMovie, sampleNoCountry] sampleSpec).filterMap
          (fun r => r.country)).toFinset,
        crossTab (filtered_df [sampleMovie, sampleNoCountry] sampleSpec)
          (fun r => some r.type) (fun r => r.country) "Movie" b
      = 1
    ∧ countBy (filtered_df [sampleMovie, sampleNoCountry] sampleSpec)
        (fun r => some r.type) "Movie" = 2 := by
  refine ⟨by decide, by decide, by decide⟩

/-- C5 (amended): over a row set on which both fields are present - the
situation at both of the code's cross-tabulation sites, (type, rating) on
the filtered set where the filter forces the rating present, and
(release_year, type) which are total columns - every cell of the cross
tabulation with no matching row is present with value 0, each row sum
equals the corresponding countBy entry of the first field, and each column
sum equals the corresponding countBy entry of the second field (src/app.py
lines 657 and 525). -/
theorem netflix_crossTab_marginals (rows : List NRow) (f g : NRow → Option String)
    (H : ∀ r ∈ rows, (f r).isSome = true ∧ (g r).isSome = true) :
    (∀ a b, (¬ ∃ r ∈ rows, f r = some a ∧ g r = some b) → crossTab rows f g a b = 0)
    ∧ (∀ a, ∑ b ∈ (rows.filterMap g).toFinset, crossTab rows f g a b = countBy rows f a)
    ∧ (∀ b, ∑ a ∈ (rows.filterMap f).toFinset, crossTab rows f g a b = countBy rows g b) := by
  refine ⟨?_, ?_, ?_⟩
  · intro a b hno
    unfold crossTab
    rw [List.length_eq_zero]
    rw [List.filter_eq_nil_iff]
    intro r hr
    intro hcontra
    simp only [Bool.and_eq_true, decide_eq_true_eq] at hcontra
    exact hno ⟨r, hr, hcontra⟩
  · intro a
    have Hg : ∀ r ∈ rows, (decide (f r = some a)) = true →
        ∃ b ∈ (rows.filterMap g).toFinset, g r = some b := by
      intro r hr _
      obtain ⟨b, hb⟩ := Option.isSome_iff_exists.mp (H r hr).2
      exact ⟨b, List.mem_toFinset.mpr (List.mem_filterMap.mpr ⟨r, hr, hb⟩), hb⟩
    exact countP_partition rows (fun r => decide (f r = some a)) g
      (rows.filterMap g).toFinset Hg
  · intro b
    have Hf : ∀ r ∈ rows, (decide (g r = some b)) = true →
        ∃ a ∈ (rows.filterMap f).toFinset, f r = some a := by
      intro r hr _
      obtain ⟨a, ha⟩ := Option.isSome_iff_exists.mp (H r hr).1
      exact ⟨a, List.mem_toFinset.mpr (List.mem_filterMap.mpr ⟨r, hr, ha⟩), ha⟩
    have base := countP_partition rows (fun r => decide (g r = some b)) f
      (rows.filterMap f).toFinset Hf
    have hswap : ∀ a, crossTab rows f g a b
        = (rows.filter (fun r => decide (g r = some b) && decide (f r = some a))).length := by
      intro a
      unfold crossTab
      congr 1
      apply List.filter_congr
      intro r _
      exact Bool.and_comm _ _
    rw [Finset.sum_congr rfl (fun a _ => hswap a)]
    exact base

/-- Witness for C5: the row sums of the (type, rating) cross tabulation of a
concrete two-row set equal the type counts. -/
theorem netflix_crossTab_marginals_witness :
    ∑ b ∈ ([sampleMovie, sampleTV].filterMap (fun r => r.rating)).toFinset,
        crossTab [sampleMovie, sampleTV] (fun r => some r.type) (fun r => r.rating) "Movie" b
      = countBy [sampleMovie, sampleTV] (fun r => some r.type) "Movie" :=
  (netflix_crossTab_marginals [sampleMovie, sampleTV]
    (fun r => some r.type) (fun r => r.rating) (by decide)).2.1 "Movie"

/-- C6: summing every count of a value_counts frequency table over the
observed values recovers exactly the number of rows whose field is present;
rows with an absent value fall into no bucket (src/app.py lines 161, 188). -/
theorem netflix_countBy_total (rows : List NRow) (f : NRow → Option String) :
    ∑ v ∈ (rows.filterMap f).toFinset, countBy rows f v
      = (rows.filter (fun r => (f r).isSome)).length := by
  have H : ∀ r ∈ rows, (f r).isSome = true →
      ∃ b ∈ (rows.filterMap f).toFinset, f r = some b := by
    intro r hr hs
    obtain ⟨b, hb⟩ := Option.isSome_iff_exists.mp hs
    exact ⟨b, List.mem_toFinset.mpr (List.mem_filterMap.mpr ⟨r, hr, hb⟩), hb⟩
  have base := countP_partition rows (fun r => (f r).isSome) f
    (rows.filterMap f).toFinset H
  have heq : ∀ v, (rows.filter (fun r => (f r).isSome && decide (f r = some v))).length
      = countBy rows f v := by
    intro v
    unfold countBy
    congr 1
    apply List.filter_congr
    intro r _
    cases hfr : f r <;> simp [hfr]
  rw [Finset.sum_congr rfl (fun v _ => (heq v).symm)]
  exact base

/-- Counterexample to C7: at the three points (2010,90), (2011,90), (2012,90)
there are at least two points and nonzero variance in x, yet the pandas
Pearson correlation of src/app.py line 858 is undefined (NaN), because the
y variance is zero. -/
theorem netflix_linearTrend_cex :
    ¬ (∀ pts : List (ℚ × ℚ), 2 ≤ pts.length →
        sumSqDev (pts.map Prod.fst) ≠ 0 → corrDefined pts = true) := by
  intro h
  have h1 : sumSqDev (([((2010:ℚ),(90:ℚ)), (2011,90), (2012,90)]).map Prod.fst) ≠ 0 := by
    norm_num [sumSqDev, qmean]
  have h2 := h [((2010:ℚ),(90:ℚ)), (2011,90), (2012,90)] (by norm_num) h1
  have h3 : corrDefined [((2010:ℚ),(90:ℚ)), (2011,90), (2012,90)] = false := by
    norm_num [corrDefined, sumSqDev, qmean]
  rw [h2] at h3
  simp at h3

/-- C7 (amended): the correlation of src/app.py line 858 is defined exactly
when both coordinates have nonzero squared deviation (so zero variance in
either coordinate, or fewer than two points, makes it NaN), and the NaN case
is not an explicit sentinel: it falls silently into the "Negative" branch of
the rendered narrative; no slope is computed at this site. -/
theorem netflix_linearTrend_defined (pts : List (ℚ × ℚ)) :
    (corrDefined pts = true ↔
      (sumSqDev (pts.map Prod.fst) ≠ 0 ∧ sumSqDev (pts.map Prod.snd) ≠ 0))
    ∧ (pts.length < 2 → corrDefined pts = false)
    ∧ corrNarrative none = "Negative" := by
  refine ⟨?_, ?_, rfl⟩
  · unfold corrDefined
    rw [decide_eq_true_iff]
    constructor
    · intro h
      exact mul_ne_zero_iff.mp h
    · intro h
      exact mul_ne_zero h.1 h.2
  · intro hlen
    match pts with
    | [] =>
        unfold corrDefined
        simp [sumSqDev_nil]
    | [p] =>
        unfold corrDefined
        simp [sumSqDev_singleton]
    | a :: b :: t => simp at hlen; omega

/-- Witness for C7 (amended): the empty point list has an undefined
correlation. -/
theorem netflix_linearTrend_defined_witness :
    corrDefined ([] : List (ℚ × ℚ)) = false :=
  (netflix_linearTrend_defined []).2.1 (by decide)

/-- C8: filtering is idempotent - filtering an already filtered set with the
same specification returns the identical list, same rows in the same order
(src/app.py lines 122-127). -/
theorem netflix_filter_idem (df : List NRow) (spec : FilterSpec) :
    filtered_df (filtered_df df spec) spec = filtered_df df spec := by
  unfold filtered_df
  rw [List.filter_filter]
  apply List.filter_congr
  intro r _
  exact Bool.and_self _

/-- C9: loading parses date_added with a tolerant parser; the output has one
row per input row (no row is dropped for an unparseable date), every other
field is carried over unchanged, and when the parse fails the parsed date
and the derived addedYear/addedMonth are absent (src/app.py lines 54-58;
addedYear/addedMonth modelled from the spec). -/
theorem netflix_load_tolerant (parse : String → Option Date) (raws : List RawRow) :
    (load_data parse raws).length = raws.length
    ∧ ∀ p ∈ raws.zip (load_data parse raws),
        p.2.title = p.1.title ∧ p.2.type = p.1.type
        ∧ p.2.releaseYear = p.1.releaseYear ∧ p.2.rating = p.1.rating
        ∧ p.2.dateAdded = p.1.dateAdded.bind parse
        ∧ (p.1.dateAdded.bind parse = none →
            addedYear p.2 = none ∧ addedMonth p.2 = none) := by
  constructor
  · simp [load_data]
  · intro p hp
    have hz : ∀ l : List RawRow, l.zip (l.map (loadRow parse))
        = l.map (fun a => (a, loadRow parse a)) := by
      intro l
      induction l with
      | nil => rfl
      | cons x xs ih => simp [ih]
    unfold load_data at hp
    rw [hz raws, List.mem_map] at hp
    obtain ⟨a, _, rfl⟩ := hp
    refine ⟨rfl, rfl, rfl, rfl, rfl, ?_⟩
    intro hfail
    constructor
    · unfold addedYear loadRow
      simp [hfail]
    · unfold addedMonth loadRow
      simp [hfail]

/-- Witness for C9 at a concrete raw row and an always-failing parser. -/
theorem netflix_load_tolerant_witness :
    addedYear (loadRow (fun _ => none) sampleRaw) = none
    ∧ addedMonth (loadRow (fun _ => none) sampleRaw) = none :=
  ((netflix_load_tolerant (fun _ => none) [sampleRaw]).2
    (sampleRaw, loadRow (fun _ => none) sampleRaw) (by simp [load_data])).2.2.2.2.2 rfl

/-- C10: the selectable rating options are exactly the observed present
ratings, and a row whose rating is absent passes no rating filter, so it is
excluded from the filtered set whatever the selection (src/app.py
lines 114-127). -/
theorem netflix_absent_rating_excluded (df : List NRow) (spec : FilterSpec) (r : NRow) :
    (∀ s ∈ ratingOptions df, ∃ r2 ∈ df, r2.rating = some s)
    ∧ (r.rating = none → r ∉ filtered_df df spec) := by
  constructor
  · intro s hs
    rw [ratingOptions, List.mem_dedup, List.mem_filterMap] at hs
    exact hs
  · intro hnone hmem
    unfold filtered_df at hmem
    rw [List.mem_filter] at hmem
    have := rating_isSome_of_passes spec r hmem.2
    rw [hnone] at this
    simp at this

/-- Witness for C10: a concrete absent-rating row is excluded even though
every rating option is selected. -/
theorem netflix_absent_rating_excluded_witness :
    sampleNoRating ∉ filtered_df [sampleMovie, sampleNoRating] sampleSpec :=
  (netflix_absent_rating_excluded [sampleMovie, sampleNoRating] sampleSpec
    sampleNoRating).2 rfl

end Netflix
